import Mathlib

/-!
Shallow embedding of `src/backend/server.py` (a FastAPI PTI record-keeping
service) and proofs about its specification claims.

Conventions of the embedding:
* the MongoDB collections `users` and `inspections` are lists of documents,
  in insertion order; `find_one`/`find` become `List.find?`/`List.filter`,
  `.to_list(1000)` becomes `List.take 1000`, `update_one` / `delete_one`
  update or delete the first matching document;
* each route handler becomes a pure function taking the authenticated
  `current_user`, its request data, the ambient nondeterminism it consumes
  (generated uuid, hashed password, current time) and the store, returning
  `Except HTTPError result` together with the store after the call
  (unchanged when an `HTTPException` is raised);
* bcrypt verification is an abstract `verify : String → String → Bool`
  parameter, Python `datetime` values are modelled by `PyDatetime` below,
  and JWTs by the `Jwt` type (a payload signed with a key, or a malformed
  blob).
-/

deriving instance DecidableEq for Except

namespace PTI

/-! ### Model of the bits of the Python runtime the handlers use -/

/-- Exceptions that the expiring-soon filter loop can raise; they are all
caught by its bare `except:` clause. -/
inductive PyError where
  | typeError
  | valueError
  | indexError
deriving Repr, DecidableEq

/-- A Python `datetime`: either timezone-aware or naive, with its position
on the time line in seconds (for aware values, seconds since the Unix epoch
in UTC; naive values live on their own unanchored line).  Python refuses to
subtract an aware datetime from a naive one. -/
structure PyDatetime where
  tzAware : Bool
  stamp : Int
deriving Repr, DecidableEq

/-- Days since 1970-01-01 of the civil date y-m-d (proleptic Gregorian),
the standard days-from-civil computation used to place `datetime(y, m, d)`
on the time line. -/
def daysFromCivil (y m d : Int) : Int :=
  let y1 : Int := if m ≤ 2 then y - 1 else y
  let era : Int := (if 0 ≤ y1 then y1 else y1 - 399).fdiv 400
  let yoe : Int := y1 - era * 400
  let doy : Int := (153 * (m + (if 2 < m then -3 else 9)) + 2).fdiv 5 + d - 1
  let doe : Int := yoe * 365 + yoe.fdiv 4 - yoe.fdiv 100 + doy
  era * 146097 + doe - 719468

/-- Number of days in month `m` of year `y` (Python `calendar` rules). -/
def daysInMonth (y m : Int) : Int :=
  if m = 2 then
    if y % 4 = 0 ∧ (y % 100 ≠ 0 ∨ y % 400 = 0) then 29 else 28
  else if m = 4 ∨ m = 6 ∨ m = 9 ∨ m = 11 then 30
  else 31

/-- The constructor `datetime(y, m, d)`: validates the calendar date and
returns a NAIVE datetime (no `tzinfo` argument is passed at
`server.py:375`), or raises `ValueError`. -/
def pyDatetimeMk (y m d : Int) : Except PyError PyDatetime :=
  if 1 ≤ y ∧ y ≤ 9999 ∧ 1 ≤ m ∧ m ≤ 12 ∧ 1 ≤ d ∧ d ≤ daysInMonth y m then
    .ok { tzAware := false, stamp := 86400 * daysFromCivil y m d }
  else .error .valueError

/-- `datetime.now(timezone.utc)`: an AWARE datetime at the current instant
`nowSecs` (seconds since the epoch). -/
def pyNowUtc (nowSecs : Int) : PyDatetime :=
  { tzAware := true, stamp := nowSecs }

/-- `(a - b).days` on two datetimes: raises `TypeError` when exactly one of
the operands is timezone-aware, otherwise the floor of the difference in
days (Python `timedelta` normalises with floor division). -/
def pySubDays (a b : PyDatetime) : Except PyError Int :=
  if a.tzAware = b.tzAware then .ok ((a.stamp - b.stamp).fdiv 86400)
  else .error .typeError

/-- Value of a nonempty all-decimal-digit character run, `none` as soon as
a non-digit shows up. -/
def decDigitsAux : List Char → Nat → Option Nat
  | [], acc => some acc
  | c :: cs, acc =>
    if c.isDigit then decDigitsAux cs (acc * 10 + (c.toNat - 48)) else none

/-- Python `int(s)`: optional surrounding whitespace, optional sign, then
at least one decimal digit; raises `ValueError` otherwise.  (Underscore
digit grouping is not modelled; no date string in play uses it.) -/
def pyInt (s : String) : Except PyError Int :=
  let t := (s.data.dropWhile Char.isWhitespace).reverse.dropWhile Char.isWhitespace |>.reverse
  match t with
  | [] => .error .valueError
  | c :: rest =>
    if c = '-' then
      match rest with
      | [] => .error .valueError
      | _ =>
        match decDigitsAux rest 0 with
        | some n => .ok (-(n : Int))
        | none => .error .valueError
    else if c = '+' then
      match rest with
      | [] => .error .valueError
      | _ =>
        match decDigitsAux rest 0 with
        | some n => .ok (n : Int)
        | none => .error .valueError
    else
      match decDigitsAux t 0 with
      | some n => .ok (n : Int)
      | none => .error .valueError

/-- Splitter behind `pySplit`, on character lists: Python
`str.split(sep)` with a one-character separator (empty pieces kept). -/
def pySplitList (sep : Char) : List Char → List (List Char)
  | [] => [[]]
  | c :: cs =>
    let r := pySplitList sep cs
    if c = sep then [] :: r
    else
      match r with
      | [] => [[c]]
      | g :: gs => (c :: g) :: gs

/-- Python `s.split(sep)` for a one-character separator. -/
def pySplit (s : String) (sep : Char) : List String :=
  (pySplitList sep s.data).map String.mk

/-- Python `parts[i]` on a list: raises `IndexError` when out of range
(the handler only ever indexes with 0, 1, 2, never negatively). -/
def pyIndex (parts : List String) (i : Nat) : Except PyError String :=
  match parts.get? i with
  | some s => .ok s
  | none => .error .indexError

/-! ### Data model (`server.py` lines 24-102) -/

/-- An `HTTPException(status_code, detail)` surfaced to the caller. -/
structure HTTPError where
  status : Nat
  detail : String
deriving Repr, DecidableEq

/-- `ACCESS_TOKEN_EXPIRE_DAYS = 30` (`server.py:27`). -/
def ACCESS_TOKEN_EXPIRE_DAYS : Int := 30

/-- The fixed inspector-creation shared secret (`server.py:28`). -/
def INSPECTOR_CREATION_PASSWORD : String := "Chiru_041217_"

/-- The JWT signing key; the fallback literal used when the environment
variable is unset (`server.py:25`). -/
def SECRET_KEY : String := "your-secret-key-change-in-production"

/-- A document of the `users` collection, as written by `register`
(`server.py:158-170`): `inspector_id` is present only for inspectors. -/
structure StoredUser where
  id : String
  name : String
  phone : String
  email : String
  role : String
  password : String
  cars : List String
  created_at : String
  inspector_id : Option String := none
deriving Repr, DecidableEq

/-- Request body of `POST /auth/register` (`UserCreate`). -/
structure UserCreate where
  name : String
  phone : String
  email : String
  role : String
  password : String
  inspector_id : Option String := none
  inspector_creation_password : Option String := none
deriving Repr, DecidableEq

/-- Response model `UserResponse`. -/
structure UserResponse where
  id : String
  name : String
  phone : String
  email : String
  role : String
  inspector_id : Option String
  cars : List String
deriving Repr, DecidableEq

/-- A document of the `inspections` collection / the `InspectionResponse`
model (the stored dict and the response coincide field for field). -/
structure Inspection where
  id : String
  car_license_plate : String
  owner_phone : String
  inspection_date : String
  expiry_date : String
  inspector_name : String
  inspector_phone : String
  car_kilometers : Int
  created_at : String
deriving Repr, DecidableEq

/-- Request body of `POST /inspections` (`InspectionCreate`). -/
structure InspectionCreate where
  car_license_plate : String
  owner_phone : String
  inspection_date : String
  expiry_date : String
  inspector_name : String
  inspector_phone : String
  car_kilometers : Int
deriving Repr, DecidableEq

/-- Request body of `PUT /inspections/{id}` (`InspectionUpdate`): `none`
models a field the caller left unset, so that
`model_dump(exclude_unset=True)` keeps exactly the `some` fields. -/
structure InspectionUpdate where
  car_license_plate : Option String := none
  owner_phone : Option String := none
  inspection_date : Option String := none
  expiry_date : Option String := none
  inspector_name : Option String := none
  inspector_phone : Option String := none
  car_kilometers : Option Int := none
deriving Repr, DecidableEq

/-! ### Token module (`server.py` lines 111-133) -/

/-- The claims a token of this service carries: `{"sub": ..., "exp": ...}`
with `exp` in seconds since the epoch. -/
structure TokenPayload where
  sub : Option String
  exp : Int
deriving Repr, DecidableEq

/-- A JWT as the handlers see it: a payload signed with some key, or a
structurally malformed blob. -/
inductive Jwt where
  | signed (payload : TokenPayload) (key : String)
  | malformed
deriving Repr, DecidableEq

/-- Errors of `jwt.decode`; `ExpiredSignatureError` is caught before the
blanket `InvalidTokenError` at `server.py:130-133`. -/
inductive JwtError where
  | expiredSignature
  | invalidToken
deriving Repr, DecidableEq

/-- `create_access_token({"sub": sub})` at instant `nowSecs`
(`server.py:111-116`): the embedded expiry is issue time plus
`ACCESS_TOKEN_EXPIRE_DAYS` days. -/
def create_access_token (sub : String) (nowSecs : Int) : Jwt :=
  .signed { sub := some sub, exp := nowSecs + ACCESS_TOKEN_EXPIRE_DAYS * 86400 } SECRET_KEY

/-- `jwt.decode(token, key, ...)` at instant `nowSecs`: signature first,
then the `exp` claim (expired when `exp ≤ now`). -/
def jwtDecode (t : Jwt) (key : String) (nowSecs : Int) : Except JwtError TokenPayload :=
  match t with
  | .malformed => .error .invalidToken
  | .signed p k =>
    if k = key then
      if p.exp ≤ nowSecs then .error .expiredSignature else .ok p
    else .error .invalidToken

/-- `get_current_user` (`server.py:118-133`): decode the bearer token,
read its `sub` claim, and load that user from the store. -/
def get_current_user (users : List StoredUser) (t : Jwt) (nowSecs : Int) :
    Except HTTPError StoredUser :=
  match jwtDecode t SECRET_KEY nowSecs with
  | .error .expiredSignature => .error ⟨401, "Token expirat"⟩
  | .error .invalidToken => .error ⟨401, "Token invalid"⟩
  | .ok payload =>
    match payload.sub with
    | none => .error ⟨401, "Token invalid"⟩
    | some user_id =>
      match users.find? (fun u => u.id == user_id) with
      | none => .error ⟨401, "Utilizator negăsit"⟩
      | some u => .ok u

/-! ### Store helper -/

/-- `update_one(filter, {"$set": ...})` / the effect of rewriting the first
document matching `p` with `f` (MongoDB `update_one` touches at most one
document, the first match in natural order). -/
def updateFirst (p : α → Bool) (f : α → α) : List α → List α
  | [] => []
  | x :: xs => if p x then f x :: xs else x :: updateFirst p f xs

/-- `delete_one(filter)`: remove the first document matching `p`. -/
def deleteFirst (p : α → Bool) : List α → List α
  | [] => []
  | x :: xs => if p x then xs else x :: deleteFirst p xs

/-! ### Account service (`server.py` lines 136-266) -/

/-- Python truthiness of `not user_data.inspector_id`
(`server.py:149`): true for an absent field and for the empty string. -/
def optFalsy : Option String → Bool
  | none => true
  | some s => s.isEmpty

/-- The `user_dict` persisted by `register` (`server.py:158-170`): `cars`
starts empty and `inspector_id` is stored only for inspectors. -/
def mkUserDict (d : UserCreate) (user_id hashed_pw now_iso : String) : StoredUser :=
  { id := user_id
    name := d.name
    phone := d.phone
    email := d.email
    role := d.role
    password := hashed_pw
    cars := []
    created_at := now_iso
    inspector_id := if d.role = "inspector" then d.inspector_id else none }

/-- The `TokenResponse` model returned by `register` and `login`. -/
structure TokenResponse where
  access_token : Jwt
  token_type : String
  user : UserResponse
deriving Repr, DecidableEq

/-- The `UserResponse` built by `register` (`server.py:178-186`). -/
def registerResponse (d : UserCreate) (user_id : String) : UserResponse :=
  { id := user_id
    name := d.name
    phone := d.phone
    email := d.email
    role := d.role
    inspector_id := if d.role = "inspector" then d.inspector_id else none
    cars := [] }

/-- `POST /auth/register` (`server.py:136-192`).  `user_id`, `hashed_pw`,
`now_iso` and `nowSecs` stand for the generated uuid, the bcrypt hash of
the submitted password, and the current time consumed by the handler. -/
def register (users : List StoredUser) (d : UserCreate)
    (user_id hashed_pw now_iso : String) (nowSecs : Int) :
    Except HTTPError (TokenResponse × List StoredUser) :=
  match users.find? (fun u => u.email == d.email) with
  | some _ => .error ⟨400, "Email-ul este deja înregistrat"⟩
  | none =>
    if d.role ≠ "client" ∧ d.role ≠ "inspector" then
      .error ⟨400, "Rol invalid"⟩
    else if d.role = "inspector" ∧ optFalsy d.inspector_id then
      .error ⟨400, "ID-ul de inspector este necesar"⟩
    else if d.role = "inspector" ∧ d.inspector_creation_password ≠ some INSPECTOR_CREATION_PASSWORD then
      .error ⟨403, "Parolă de creare inspector incorectă"⟩
    else
      .ok ({ access_token := create_access_token user_id nowSecs
             token_type := "bearer"
             user := registerResponse d user_id },
           users ++ [mkUserDict d user_id hashed_pw now_iso])

/-- The `UserResponse` built from a stored user by `login` and
`GET /auth/me` (`server.py:205-213`, `223-231`). -/
def userResponseOf (u : StoredUser) : UserResponse :=
  { id := u.id
    name := u.name
    phone := u.phone
    email := u.email
    role := u.role
    inspector_id := u.inspector_id
    cars := u.cars }

/-- `POST /auth/login` (`server.py:194-219`); `verify` abstracts
`verify_password` (bcrypt). -/
def login (verify : String → String → Bool) (users : List StoredUser)
    (email password : String) (nowSecs : Int) :
    Except HTTPError TokenResponse :=
  match users.find? (fun u => u.email == email) with
  | none => .error ⟨401, "Email sau parolă incorectă"⟩
  | some user =>
    if verify password user.password then
      .ok { access_token := create_access_token user.id nowSecs
            token_type := "bearer"
            user := userResponseOf user }
    else .error ⟨401, "Email sau parolă incorectă"⟩

/-- `POST /users/add-car` (`server.py:234-249`): clients only; refuses a
plate already in the list, otherwise appends it and rewrites the user's
`cars` field in the store.  Returns the `cars` list of the response body
together with the store after the call. -/
def add_car (current_user : StoredUser) (license_plate : String)
    (users : List StoredUser) :
    Except HTTPError (List String) × List StoredUser :=
  if current_user.role ≠ "client" then
    (.error ⟨403, "Doar clienții pot adăuga mașini"⟩, users)
  else
    let cars := current_user.cars
    if cars.contains license_plate then
      (.error ⟨400, "Mașina este deja adăugată"⟩, users)
    else
      let cars1 := cars ++ [license_plate]
      (.ok cars1,
       updateFirst (fun u => u.id == current_user.id)
         (fun u => { u with cars := cars1 }) users)

/-- `DELETE /users/remove-car/{plate}` (`server.py:251-266`): clients
only; 404 when the plate is absent, otherwise `list.remove` drops the
first occurrence and the list is rewritten in the store. -/
def remove_car (current_user : StoredUser) (license_plate : String)
    (users : List StoredUser) :
    Except HTTPError (List String) × List StoredUser :=
  if current_user.role ≠ "client" then
    (.error ⟨403, "Doar clienții pot șterge mașini"⟩, users)
  else
    let cars := current_user.cars
    if cars.contains license_plate then
      let cars1 := cars.erase license_plate
      (.ok cars1,
       updateFirst (fun u => u.id == current_user.id)
         (fun u => { u with cars := cars1 }) users)
    else
      (.error ⟨404, "Mașină negăsită"⟩, users)

/-! ### Inspection service (`server.py` lines 269-383) -/

/-- `POST /inspections` (`server.py:269-289`): inspectors only; builds the
document from the request plus a generated id and creation timestamp and
inserts it. -/
def create_inspection (current_user : StoredUser) (d : InspectionCreate)
    (inspection_id created_at : String) (insps : List Inspection) :
    Except HTTPError Inspection × List Inspection :=
  if current_user.role ≠ "inspector" then
    (.error ⟨403, "Doar inspectorii pot crea inspecții"⟩, insps)
  else
    let insp : Inspection :=
      { id := inspection_id
        car_license_plate := d.car_license_plate
        owner_phone := d.owner_phone
        inspection_date := d.inspection_date
        expiry_date := d.expiry_date
        inspector_name := d.inspector_name
        inspector_phone := d.inspector_phone
        car_kilometers := d.car_kilometers
        created_at := created_at }
    (.ok insp, insps ++ [insp])

/-- `GET /inspections` (`server.py:291-306`): a client with no cars gets
`[]` straight away; otherwise the store is queried (`$in` the car list for
a client, everything for an inspector), capped by `.to_list(1000)`.  The
second component counts the store queries the call issued. -/
def get_inspections (current_user : StoredUser) (insps : List Inspection) :
    Except HTTPError (List Inspection) × Nat :=
  if current_user.role = "client" then
    let cars := current_user.cars
    if cars.isEmpty then (.ok [], 0)
    else
      (.ok ((insps.filter fun i => cars.contains i.car_license_plate).take 1000), 1)
  else
    (.ok (insps.take 1000), 1)

/-- `GET /inspections/search/{plate}` (`server.py:308-321`): a client may
only search a plate of their own car list; the query itself is unfiltered
by role. -/
def search_inspections (current_user : StoredUser) (license_plate : String)
    (insps : List Inspection) : Except HTTPError (List Inspection) :=
  if current_user.role = "client" ∧ ¬ current_user.cars.contains license_plate then
    .error ⟨403, "Nu aveți permisiunea de a vedea această mașină"⟩
  else
    .ok ((insps.filter fun i => i.car_license_plate == license_plate).take 1000)

/-- `True` when `model_dump(exclude_unset=True)` is the empty dict, i.e.
the caller set no field at all (`if update_data:` at `server.py:333`). -/
def InspectionUpdate.allUnset (d : InspectionUpdate) : Bool :=
  d.car_license_plate.isNone && d.owner_phone.isNone && d.inspection_date.isNone &&
  d.expiry_date.isNone && d.inspector_name.isNone && d.inspector_phone.isNone &&
  d.car_kilometers.isNone

/-- The effect of `$set`-ing `model_dump(exclude_unset=True)` onto a
stored inspection / of `inspection.update(update_data)`
(`server.py:332-338`): each field the caller set overwrites the stored
one, every unset field is left untouched. -/
def applyUpdate (i : Inspection) (d : InspectionUpdate) : Inspection :=
  { i with
    car_license_plate := d.car_license_plate.getD i.car_license_plate
    owner_phone := d.owner_phone.getD i.owner_phone
    inspection_date := d.inspection_date.getD i.inspection_date
    expiry_date := d.expiry_date.getD i.expiry_date
    inspector_name := d.inspector_name.getD i.inspector_name
    inspector_phone := d.inspector_phone.getD i.inspector_phone
    car_kilometers := d.car_kilometers.getD i.car_kilometers }

/-- `PUT /inspections/{id}` (`server.py:323-340`): inspectors only; 404
for an unknown id; otherwise the set fields are written to the store and
the merged record is returned. -/
def update_inspection (current_user : StoredUser) (inspection_id : String)
    (d : InspectionUpdate) (insps : List Inspection) :
    Except HTTPError Inspection × List Inspection :=
  if current_user.role ≠ "inspector" then
    (.error ⟨403, "Doar inspectorii pot actualiza inspecțiile"⟩, insps)
  else
    match insps.find? (fun i => i.id == inspection_id) with
    | none => (.error ⟨404, "Inspecție negăsită"⟩, insps)
    | some insp =>
      if d.allUnset then (.ok insp, insps)
      else
        (.ok (applyUpdate insp d),
         updateFirst (fun i => i.id == inspection_id) (fun i => applyUpdate i d) insps)

/-- `DELETE /inspections/{id}` (`server.py:342-351`): inspectors only;
`delete_one` removes the first match, 404 when `deleted_count == 0`. -/
def delete_inspection (current_user : StoredUser) (inspection_id : String)
    (insps : List Inspection) : Except HTTPError String × List Inspection :=
  if current_user.role ≠ "inspector" then
    (.error ⟨403, "Doar inspectorii pot șterge inspecțiile"⟩, insps)
  else
    match insps.find? (fun i => i.id == inspection_id) with
    | none => (.error ⟨404, "Inspecție negăsită"⟩, insps)
    | some _ =>
      (.ok "Inspecție ștearsă cu succes",
       deleteFirst (fun i => i.id == inspection_id) insps)

/-- The date parse of the expiring-soon loop (`server.py:374-375`):
`expiry_parts = expiry_date.split("-")`, then
`datetime(int(expiry_parts[2]), int(expiry_parts[1]), int(expiry_parts[0]))`,
arguments evaluated left to right.  The result, when it exists, is a NAIVE
datetime. -/
def parseExpiry (expiry_date : String) : Except PyError PyDatetime := do
  let parts := pySplit expiry_date '-'
  let s2 ← pyIndex parts 2
  let y ← pyInt s2
  let s1 ← pyIndex parts 1
  let m ← pyInt s1
  let s0 ← pyIndex parts 0
  let d ← pyInt s0
  pyDatetimeMk y m d

/-- One iteration of the filter loop of `get_expiring_inspections`
(`server.py:371-381`): parse the expiry date, subtract `today` from it,
keep the record when `0 <= days_until_expiry <= 30`; ANY exception makes
the bare `except:` skip the record. -/
def expiryKeep (today : PyDatetime) (insp : Inspection) : Bool :=
  match parseExpiry insp.expiry_date with
  | .error _ => false
  | .ok expiry_date =>
    match pySubDays expiry_date today with
    | .error _ => false
    | .ok days_until_expiry => decide (0 ≤ days_until_expiry ∧ days_until_expiry ≤ 30)

/-- `GET /inspections/expiring/soon` (`server.py:353-383`): the same
role-based visible set as `get_inspections`, then the filter loop above,
with `today = datetime.now(timezone.utc)` (timezone-AWARE). -/
def get_expiring_inspections (current_user : StoredUser)
    (insps : List Inspection) (nowSecs : Int) :
    Except HTTPError (List Inspection) :=
  let today := pyNowUtc nowSecs
  if current_user.role = "client" then
    let cars := current_user.cars
    if cars.isEmpty then .ok []
    else
      .ok (((insps.filter fun i => cars.contains i.car_license_plate).take 1000).filter
        (expiryKeep today))
  else
    .ok ((insps.take 1000).filter (expiryKeep today))

/-! ### Helper lemmas about the embedding -/

/-- `datetime(y, m, d)` only ever builds naive datetimes. -/
theorem pyDatetimeMk_naive {y m d : Int} {e : PyDatetime}
    (h : pyDatetimeMk y m d = .ok e) : e.tzAware = false := by
  unfold pyDatetimeMk at h
  split at h
  · simp only [Except.ok.injEq] at h
    subst h
    rfl
  · simp at h

/-- Inversion of a successful `Except` bind. -/
theorem exceptBind_ok {ε α β : Type} {x : Except ε α} {f : α → Except ε β} {b : β}
    (h : x >>= f = .ok b) : ∃ a, x = .ok a ∧ f a = .ok b := by
  cases x with
  | error e => simp [Bind.bind, Except.bind] at h
  | ok a =>
    refine ⟨a, rfl, ?_⟩
    simpa [Bind.bind, Except.bind] using h

/-- Whatever `parseExpiry` manages to parse is a naive datetime. -/
theorem parseExpiry_naive {s : String} {e : PyDatetime}
    (h : parseExpiry s = .ok e) : e.tzAware = false := by
  unfold parseExpiry at h
  obtain ⟨s2, _, h⟩ := exceptBind_ok h
  try dsimp only at h
  obtain ⟨y, _, h⟩ := exceptBind_ok h
  try dsimp only at h
  obtain ⟨s1, _, h⟩ := exceptBind_ok h
  try dsimp only at h
  obtain ⟨m, _, h⟩ := exceptBind_ok h
  try dsimp only at h
  obtain ⟨s0, _, h⟩ := exceptBind_ok h
  try dsimp only at h
  obtain ⟨d, _, h⟩ := exceptBind_ok h
  try dsimp only at h
  exact pyDatetimeMk_naive h

/-- With the timezone-aware `today` of `get_expiring_inspections`, the
filter loop keeps no record: the subtraction of an aware datetime from a
naive one raises `TypeError`, which the bare `except:` turns into a skip. -/
theorem expiryKeep_aware (nowSecs : Int) (insp : Inspection) :
    expiryKeep (pyNowUtc nowSecs) insp = false := by
  unfold expiryKeep
  split
  · rfl
  · next e heq =>
      have hn : e.tzAware = false := parseExpiry_naive heq
      simp [pySubDays, pyNowUtc, hn]

theorem filter_expiryKeep_eq_nil (nowSecs : Int) (l : List Inspection) :
    l.filter (expiryKeep (pyNowUtc nowSecs)) = [] :=
  List.filter_eq_nil_iff.mpr (fun a _ => by simp [expiryKeep_aware])

/-- After rewriting the first match with `f`, `find?` returns the
rewritten document (provided `f` keeps the filter satisfied). -/
theorem find?_updateFirst {α : Type} {p : α → Bool} {f : α → α} {l : List α} {x : α}
    (h : l.find? p = some x) (hf : p (f x) = true) :
    (updateFirst p f l).find? p = some (f x) := by
  induction l with
  | nil => simp [List.find?] at h
  | cons a t ih =>
    by_cases hpa : p a = true
    · rw [List.find?_cons_of_pos _ hpa] at h
      injection h with h
      subst h
      simp [updateFirst, hpa, List.find?_cons_of_pos _ hf]
    · have hpa1 : p a = false := by simpa using hpa
      rw [List.find?_cons_of_neg _ (by simp [hpa1])] at h
      simp [updateFirst, hpa1, ih h]

/-- An update that sets no field at all leaves the record unchanged. -/
theorem applyUpdate_allUnset {i : Inspection} {d : InspectionUpdate}
    (h : d.allUnset = true) : applyUpdate i d = i := by
  cases d
  simp only [InspectionUpdate.allUnset, Bool.and_eq_true, Option.isNone_iff_eq_none] at h
  obtain ⟨⟨⟨⟨⟨⟨h1, h2⟩, h3⟩, h4⟩, h5⟩, h6⟩, h7⟩ := h
  subst h1 h2 h3 h4 h5 h6 h7
  rfl

/-! ### Concrete sample data for witnesses and counterexamples -/

def anaClient : StoredUser :=
  { id := "u1", name := "Ana Pop", phone := "0712345678", email := "ana@test.com",
    role := "client", password := "hash1", cars := ["AB123CDE"], created_at := "t0" }

def noCarsClient : StoredUser :=
  { anaClient with id := "u3", email := "bea@test.com", cars := [] }

def danInspector : StoredUser :=
  { id := "u2", name := "Dan Ionescu", phone := "0712345679", email := "dan@test.com",
    role := "inspector", password := "hash2", cars := [], created_at := "t0",
    inspector_id := some "INS001" }

def janInspection : Inspection :=
  { id := "i1", car_license_plate := "AB123CDE", owner_phone := "0712345678",
    inspection_date := "01-01-2024", expiry_date := "15-01-2025",
    inspector_name := "Dan Ionescu", inspector_phone := "0712345679",
    car_kilometers := 50000, created_at := "t1" }

def marchInspection : Inspection :=
  { janInspection with id := "i2", expiry_date := "15-03-2025" }

def badDateInspection : Inspection :=
  { janInspection with id := "i3", expiry_date := "not-a-date" }

def kmUpdate : InspectionUpdate := { car_kilometers := some 55000 }

/-- Seconds since the epoch of 2025-01-01T00:00:00Z. -/
def jan1st2025 : Int := 1735689600

def sampleCreate : InspectionCreate :=
  { car_license_plate := "AB123CDE", owner_phone := "0712345678",
    inspection_date := "01-01-2025", expiry_date := "01-01-2026",
    inspector_name := "Dan Ionescu", inspector_phone := "0712345679",
    car_kilometers := 50000 }

def eveInspectorReg : UserCreate :=
  { name := "Eve Marin", phone := "0700000000", email := "ana@test.com",
    role := "inspector", password := "pw9", inspector_id := some "INS002",
    inspector_creation_password := some "Chiru_041217_" }

def claraClientReg : UserCreate :=
  { name := "Clara Radu", phone := "0711111111", email := "clara@test.com",
    role := "client", password := "pw7" }

/-! ### Claims -/

/-- C1: the spec says `expiring_soon` keeps exactly the visible records
whose expiry date lies in [today, today+30 days]; the code instead returns
the empty list on EVERY input, because `today` is timezone-aware while the
parsed expiry date is naive, so their subtraction raises `TypeError`,
which the bare `except:` turns into skipping the record.  In particular,
with today = 01-01-2025 a client owning "AB123CDE" gets `[]` even though
the visible record with expiry_date "15-01-2025" is only 14 days out. -/
theorem get_expiring_inspections_always_empty :
    (∀ (u : StoredUser) (insps : List Inspection) (nowSecs : Int),
        get_expiring_inspections u insps nowSecs = .ok []) ∧
    get_expiring_inspections anaClient
      [janInspection, marchInspection, badDateInspection] jan1st2025 = .ok [] := by
  constructor
  · intro u insps nowSecs
    simp [get_expiring_inspections, filter_expiryKeep_eq_nil]
  · decide

/-- C4: for an identity with role client, creating, updating and deleting
inspections always fail with the 403 Forbidden error and leave the
inspection store unchanged, and searching a plate outside the client's
own car list fails with 403 Forbidden as well. -/
theorem client_inspection_writes_forbidden
    (u : StoredUser) (h : u.role = "client")
    (d : InspectionCreate) (genId created idStr plate : String)
    (upd : InspectionUpdate) (insps : List Inspection) :
    create_inspection u d genId created insps
      = (.error ⟨403, "Doar inspectorii pot crea inspecții"⟩, insps) ∧
    update_inspection u idStr upd insps
      = (.error ⟨403, "Doar inspectorii pot actualiza inspecțiile"⟩, insps) ∧
    delete_inspection u idStr insps
      = (.error ⟨403, "Doar inspectorii pot șterge inspecțiile"⟩, insps) ∧
    (u.cars.contains plate = false →
      search_inspections u plate insps
        = .error ⟨403, "Nu aveți permisiunea de a vedea această mașină"⟩) := by
  refine ⟨?_, ?_, ?_, fun hc => ?_⟩ <;>
    simp_all [create_inspection, update_inspection, delete_inspection, search_inspections]

theorem client_inspection_writes_forbidden_witness :
    create_inspection anaClient sampleCreate "i9" "t9" []
      = (.error ⟨403, "Doar inspectorii pot crea inspecții"⟩, []) ∧
    search_inspections anaClient "XX99YYY" []
      = .error ⟨403, "Nu aveți permisiunea de a vedea această mașină"⟩ := by
  have h := client_inspection_writes_forbidden anaClient rfl sampleCreate
    "i9" "t9" "i1" "XX99YYY" kmUpdate []
  exact ⟨h.1, h.2.2.2 (by decide)⟩

/-- C7: a login failing because the email does not exist and a login
failing because the password does not verify produce the identical
outcome: the same 401 status with the same message. -/
theorem login_failure_indistinguishable
    (verifyA verifyB : String → String → Bool)
    (usersA usersB : List StoredUser) (emailA pwA emailB pwB : String)
    (nowA nowB : Int) (u : StoredUser)
    (hA : usersA.find? (fun x => x.email == emailA) = none)
    (hB : usersB.find? (fun x => x.email == emailB) = some u)
    (hBv : verifyB pwB u.password = false) :
    login verifyA usersA emailA pwA nowA = .error ⟨401, "Email sau parolă incorectă"⟩ ∧
    login verifyB usersB emailB pwB nowB = .error ⟨401, "Email sau parolă incorectă"⟩ := by
  constructor
  · simp [login, hA]
  · simp [login, hB, hBv]

theorem login_failure_indistinguishable_witness :
    login (fun _ _ => false) [anaClient] "ghost@test.com" "pw" 0
      = .error ⟨401, "Email sau parolă incorectă"⟩ ∧
    login (fun _ _ => false) [anaClient] "ana@test.com" "pw" 0
      = .error ⟨401, "Email sau parolă incorectă"⟩ :=
  login_failure_indistinguishable (fun _ _ => false) (fun _ _ => false)
    [anaClient] [anaClient] "ghost@test.com" "pw" "ana@test.com" "pw" 0 0 anaClient
    (by decide) (by decide) rfl

/-- C8: a token embeds expiry = issue instant + 30 days; resolving it
strictly after that expiry fails with the expiry-specific 401
"Token expirat", which is a different error from the 401 "Token invalid"
produced for a structurally malformed token. -/
theorem token_expiry_specific
    (sub : String) (issuedAt : Int) (users : List StoredUser) (nowSecs : Int)
    (h : issuedAt + ACCESS_TOKEN_EXPIRE_DAYS * 86400 < nowSecs) :
    create_access_token sub issuedAt
      = .signed { sub := some sub, exp := issuedAt + ACCESS_TOKEN_EXPIRE_DAYS * 86400 }
          SECRET_KEY ∧
    get_current_user users (create_access_token sub issuedAt) nowSecs
      = .error ⟨401, "Token expirat"⟩ ∧
    get_current_user users .malformed nowSecs = .error ⟨401, "Token invalid"⟩ ∧
    (⟨401, "Token expirat"⟩ : HTTPError) ≠ ⟨401, "Token invalid"⟩ := by
  have hle : issuedAt + ACCESS_TOKEN_EXPIRE_DAYS * 86400 ≤ nowSecs := le_of_lt h
  refine ⟨rfl, ?_, rfl, by decide⟩
  simp [get_current_user, jwtDecode, create_access_token, hle]

/-- A token issued at the epoch, resolved 31 days later, is rejected with
the expiry-specific error. -/
theorem token_expiry_specific_witness :
    get_current_user [] (create_access_token "u1" 0) 2678400
      = .error ⟨401, "Token expirat"⟩ ∧
    get_current_user ([] : List StoredUser) .malformed 2678400
      = .error ⟨401, "Token invalid"⟩ :=
  ⟨(token_expiry_specific "u1" 0 [] 2678400 (by decide)).2.1,
   (token_expiry_specific "u1" 0 [] 2678400 (by decide)).2.2.1⟩

/-- C2: for an inspector, `update` fails with 404 NotFound on an unknown
id; on a known id it returns the stored record merged with exactly the
fields the caller set, the store afterwards holds that merged record, a
field left unset keeps its stored value (never nulled), and a field set in
the payload takes the payload value. -/
theorem update_inspection_exclude_unset
    (u : StoredUser) (h : u.role = "inspector") (idStr : String)
    (d : InspectionUpdate) (insps : List Inspection) :
    ((insps.find? fun i => i.id == idStr) = none →
        update_inspection u idStr d insps = (.error ⟨404, "Inspecție negăsită"⟩, insps)) ∧
    (∀ insp, (insps.find? fun i => i.id == idStr) = some insp →
        (update_inspection u idStr d insps).1 = .ok (applyUpdate insp d) ∧
        ((update_inspection u idStr d insps).2.find? fun i => i.id == idStr)
          = some (applyUpdate insp d) ∧
        (d.car_license_plate = none →
            (applyUpdate insp d).car_license_plate = insp.car_license_plate) ∧
        (d.owner_phone = none → (applyUpdate insp d).owner_phone = insp.owner_phone) ∧
        (d.inspection_date = none →
            (applyUpdate insp d).inspection_date = insp.inspection_date) ∧
        (d.expiry_date = none → (applyUpdate insp d).expiry_date = insp.expiry_date) ∧
        (d.inspector_name = none →
            (applyUpdate insp d).inspector_name = insp.inspector_name) ∧
        (d.inspector_phone = none →
            (applyUpdate insp d).inspector_phone = insp.inspector_phone) ∧
        (d.car_kilometers = none →
            (applyUpdate insp d).car_kilometers = insp.car_kilometers) ∧
        (∀ v, d.car_license_plate = some v → (applyUpdate insp d).car_license_plate = v) ∧
        (∀ v, d.owner_phone = some v → (applyUpdate insp d).owner_phone = v) ∧
        (∀ v, d.inspection_date = some v → (applyUpdate insp d).inspection_date = v) ∧
        (∀ v, d.expiry_date = some v → (applyUpdate insp d).expiry_date = v) ∧
        (∀ v, d.inspector_name = some v → (applyUpdate insp d).inspector_name = v) ∧
        (∀ v, d.inspector_phone = some v → (applyUpdate insp d).inspector_phone = v) ∧
        (∀ v, d.car_kilometers = some v → (applyUpdate insp d).car_kilometers = v) ∧
        (applyUpdate insp d).id = insp.id ∧ (applyUpdate insp d).created_at = insp.created_at) := by
  constructor
  · intro hnone
    simp [update_inspection, h, hnone]
  · intro insp hsome
    have hid : ((applyUpdate insp d).id == idStr) = true := by
      have := List.find?_some hsome
      simpa [applyUpdate] using this
    constructor
    · by_cases hau : d.allUnset
      · simp [update_inspection, h, hsome, hau, applyUpdate_allUnset hau]
      · simp [update_inspection, h, hsome, hau]
    constructor
    · by_cases hau : d.allUnset
      · simp [update_inspection, h, hsome, hau, applyUpdate_allUnset hau]
      · have hstore : (update_inspection u idStr d insps).2
            = updateFirst (fun i => i.id == idStr) (fun i => applyUpdate i d) insps := by
          simp [update_inspection, h, hsome, hau]
        rw [hstore]
        exact find?_updateFirst hsome hid
    refine ⟨?_, ?_, ?_, ?_, ?_, ?_, ?_, ?_, ?_, ?_, ?_, ?_, ?_, ?_, rfl, rfl⟩ <;>
      first
        | (intro hv; simp [applyUpdate, hv])
        | (intro v hv; simp [applyUpdate, hv])

theorem update_inspection_exclude_unset_witness :
    (update_inspection danInspector "i1" kmUpdate [janInspection]).1
      = .ok (applyUpdate janInspection kmUpdate) ∧
    (applyUpdate janInspection kmUpdate).owner_phone = janInspection.owner_phone ∧
    (applyUpdate janInspection kmUpdate).car_kilometers = 55000 := by
  obtain ⟨h1, h2, hc1, hc2, hc3, hc4, hc5, hc6, hc7, hs1, hs2, hs3, hs4, hs5, hs6, hs7, hrest⟩ :=
    (update_inspection_exclude_unset danInspector rfl "i1" kmUpdate
      [janInspection]).2 janInspection (by decide)
  exact ⟨h1, hc2 rfl, hs7 55000 rfl⟩

set_option maxRecDepth 100000 in
/-- C3 counterexample: with 1001 stored inspections all bearing the
client's plate, `list` returns only the first 1000 of them, so the result
is NOT exactly the set of inspections whose plate is in the car list. -/
theorem get_inspections_client_cap_counterexample :
    (get_inspections anaClient (List.replicate 1001 janInspection)).1
      ≠ .ok ((List.replicate 1001 janInspection).filter
          fun i => anaClient.cars.contains i.car_license_plate) := by
  decide

/-- C3 amended: a client with an empty car list gets `[]` without issuing
a store query; a client with cars gets exactly the stored inspections
whose plate is in the car list, truncated to the first 1000 of them in
store order (the same 1000-record cap as for inspectors); an inspector
gets all inspections truncated to the first 1000. -/
theorem get_inspections_role_visibility
    (u : StoredUser) (insps : List Inspection) :
    (u.role = "client" → u.cars = [] → get_inspections u insps = (.ok [], 0)) ∧
    (u.role = "client" → u.cars ≠ [] →
        get_inspections u insps
          = (.ok ((insps.filter fun i => u.cars.contains i.car_license_plate).take 1000), 1)) ∧
    (u.role = "inspector" → get_inspections u insps = (.ok (insps.take 1000), 1)) := by
  refine ⟨fun h hc => ?_, fun h hc => ?_, fun h => ?_⟩ <;>
    simp_all [get_inspections, List.isEmpty_iff]

theorem get_inspections_role_visibility_witness :
    get_inspections noCarsClient [janInspection] = (.ok [], 0) ∧
    get_inspections anaClient [janInspection, marchInspection] = (.ok [janInspection, marchInspection], 1) ∧
    get_inspections danInspector [janInspection] = (.ok [janInspection], 1) := by
  refine ⟨(get_inspections_role_visibility noCarsClient [janInspection]).1 rfl rfl, ?_, ?_⟩
  · have h := (get_inspections_role_visibility anaClient
      [janInspection, marchInspection]).2.1 rfl (by decide)
    rw [h]
    decide
  · have h := (get_inspections_role_visibility danInspector [janInspection]).2.2 rfl
    rw [h]
    decide

/-- C5 counterexample: an inspector registration carrying the exact
creation secret and a non-empty inspector_id still fails (with the email
conflict, 400) when the email is already registered — so with the exact
secret registration does NOT always succeed. -/
theorem register_inspector_taken_email_counterexample :
    register [anaClient] eveInspectorReg "u9" "hash9" "t9" 0
      = .error ⟨400, "Email-ul este deja înregistrat"⟩ := by
  decide

/-- C5 amended: for an inspector registration whose email is not yet
registered: a missing (or empty) inspector_id fails with 400
MissingInspectorId — this check runs before the password check — then a
creation password different from the exact secret fails with 403
Forbidden, and with the exact secret and a non-empty inspector_id the
registration succeeds. -/
theorem register_inspector_gating
    (users : List StoredUser) (d : UserCreate)
    (uid hpw tiso : String) (nowSecs : Int)
    (hfresh : users.find? (fun u => u.email == d.email) = none)
    (hrole : d.role = "inspector") :
    (optFalsy d.inspector_id = true →
        register users d uid hpw tiso nowSecs
          = .error ⟨400, "ID-ul de inspector este necesar"⟩) ∧
    (optFalsy d.inspector_id = false →
        d.inspector_creation_password ≠ some INSPECTOR_CREATION_PASSWORD →
        register users d uid hpw tiso nowSecs
          = .error ⟨403, "Parolă de creare inspector incorectă"⟩) ∧
    (optFalsy d.inspector_id = false →
        d.inspector_creation_password = some INSPECTOR_CREATION_PASSWORD →
        register users d uid hpw tiso nowSecs
          = .ok ({ access_token := create_access_token uid nowSecs
                   token_type := "bearer"
                   user := registerResponse d uid },
                 users ++ [mkUserDict d uid hpw tiso])) := by
  refine ⟨fun hid => ?_, fun hid hpw1 => ?_, fun hid hpw1 => ?_⟩
  · simp [register, hfresh, hrole, hid]
  · simp [register, hfresh, hrole, hid, hpw1]
  · simp [register, hfresh, hrole, hid, hpw1]

theorem register_inspector_gating_witness :
    register [] eveInspectorReg "u9" "hash9" "t9" 0
      = .ok ({ access_token := create_access_token "u9" 0
               token_type := "bearer"
               user := registerResponse eveInspectorReg "u9" },
             [mkUserDict eveInspectorReg "u9" "hash9" "t9"]) := by
  have h := (register_inspector_gating [] eveInspectorReg "u9" "hash9" "t9" 0
    rfl rfl).2.2 (by decide) rfl
  simpa using h

/-- C6: for a client, adding a plate already present fails with the 400
duplicate-car error leaving the store unchanged, removing an absent plate
fails with the 404 car-not-found error leaving the store unchanged, and
adding a fresh plate then removing it returns the original car list and
restores the stored user record exactly. -/
theorem add_remove_car_roundtrip
    (u : StoredUser) (h : u.role = "client") (p : String) (users : List StoredUser) :
    (u.cars.contains p = true →
        add_car u p users = (.error ⟨400, "Mașina este deja adăugată"⟩, users)) ∧
    (u.cars.contains p = false →
        remove_car u p users = (.error ⟨404, "Mașină negăsită"⟩, users)) ∧
    (u.cars.contains p = false →
        users.find? (fun x => x.id == u.id) = some u →
        (add_car u p users).1 = .ok (u.cars ++ [p]) ∧
        ((add_car u p users).2.find? fun x => x.id == u.id)
          = some { u with cars := u.cars ++ [p] } ∧
        (remove_car { u with cars := u.cars ++ [p] } p (add_car u p users).2).1
          = .ok u.cars ∧
        ((remove_car { u with cars := u.cars ++ [p] } p (add_car u p users).2).2.find?
            fun x => x.id == u.id) = some u) := by
  refine ⟨fun hc => ?_, fun hc => ?_, fun hc hfind => ?_⟩
  · have hm : p ∈ u.cars := by simpa using hc
    simp [add_car, h, hm]
  · have hp : p ∉ u.cars := by simpa using hc
    simp [remove_car, h, hp]
  · have hp : p ∉ u.cars := by simpa using hc
    have hstore : (add_car u p users).2
        = updateFirst (fun x => x.id == u.id)
            (fun x => { x with cars := u.cars ++ [p] }) users := by
      simp [add_car, h, hp]
    have hfind1 : ((add_car u p users).2.find? fun x => x.id == u.id)
        = some { u with cars := u.cars ++ [p] } := by
      rw [hstore]
      exact find?_updateFirst hfind (by simp)
    have hmem : p ∈ u.cars ++ [p] := by simp
    have herase : (u.cars ++ [p]).erase p = u.cars := by
      rw [List.erase_append_right _ hp, List.erase_cons_head, List.append_nil]
    refine ⟨by simp [add_car, h, hp], hfind1, ?_, ?_⟩
    · simp [remove_car, h, hmem, herase]
    · have hstore2 : (remove_car { u with cars := u.cars ++ [p] } p (add_car u p users).2).2
          = updateFirst (fun x => x.id == u.id)
              (fun x => { x with cars := (u.cars ++ [p]).erase p }) (add_car u p users).2 := by
        simp [remove_car, h, hmem]
      rw [hstore2, herase]
      exact find?_updateFirst (f := fun x => { x with cars := u.cars })
        (x := { u with cars := u.cars ++ [p] }) hfind1 (by simp)

theorem add_remove_car_roundtrip_witness :
    (add_car anaClient "XY00ZZZ" [anaClient]).1 = .ok ["AB123CDE", "XY00ZZZ"] ∧
    (remove_car { anaClient with cars := anaClient.cars ++ ["XY00ZZZ"] } "XY00ZZZ"
        (add_car anaClient "XY00ZZZ" [anaClient]).2).1 = .ok ["AB123CDE"] ∧
    ((remove_car { anaClient with cars := anaClient.cars ++ ["XY00ZZZ"] } "XY00ZZZ"
        (add_car anaClient "XY00ZZZ" [anaClient]).2).2.find?
        fun x => x.id == anaClient.id) = some anaClient := by
  have h := (add_remove_car_roundtrip anaClient rfl "XY00ZZZ" [anaClient]).2.2
    (by decide) (by decide)
  exact ⟨h.1, h.2.2.1, h.2.2.2⟩

/-- Inversion of a successful `register`: the response and the new store
are fully determined. -/
theorem register_ok_store {users : List StoredUser} {d : UserCreate}
    {uid hpw tiso : String} {nowSecs : Int} {resp : TokenResponse}
    {users1 : List StoredUser}
    (h : register users d uid hpw tiso nowSecs = .ok (resp, users1)) :
    resp = { access_token := create_access_token uid nowSecs
             token_type := "bearer"
             user := registerResponse d uid } ∧
    users1 = users ++ [mkUserDict d uid hpw tiso] := by
  unfold register at h
  split at h
  · exact absurd h (by simp)
  · split at h
    · exact absurd h (by simp)
    · split at h
      · exact absurd h (by simp)
      · split at h
        · exact absurd h (by simp)
        · simp only [Except.ok.injEq, Prod.mk.injEq] at h
          exact ⟨h.1.symm, h.2.symm⟩

/-- The no-duplicate-plates invariant of the users store. -/
def CarsNodup (users : List StoredUser) : Prop :=
  ∀ u ∈ users, u.cars.Nodup

/-- Rewriting one user's car list with a duplicate-free list preserves
the store invariant. -/
theorem carsNodup_updateFirst (q : StoredUser → Bool) (cs : List String)
    (hcs : cs.Nodup) :
    ∀ users : List StoredUser, CarsNodup users →
      CarsNodup (updateFirst q (fun x => { x with cars := cs }) users) := by
  intro users
  induction users with
  | nil => exact fun hinv => hinv
  | cons a t ih =>
    intro hinv
    simp only [updateFirst]
    split
    · intro u hu
      rcases List.mem_cons.mp hu with h1 | h1
      · subst h1
        exact hcs
      · exact hinv u (List.mem_cons_of_mem _ h1)
    · intro u hu
      rcases List.mem_cons.mp hu with h1 | h1
      · subst h1
        exact hinv u (List.mem_cons_self _ _)
      · exact ih (fun x hx => hinv x (List.mem_cons_of_mem _ hx)) u h1

/-- C9: no user's car list holds a duplicate plate, preserved by every
public operation: registration persists an empty car list, `add_car`
refuses a plate already present and otherwise appends a fresh plate
(keeping the list duplicate-free), and `remove_car` erases an existing
element (keeping the list duplicate-free). -/
theorem cars_nodup_invariant
    (users : List StoredUser) (hinv : CarsNodup users) :
    (∀ (d : UserCreate) (uid hpw tiso : String), (mkUserDict d uid hpw tiso).cars = []) ∧
    (∀ d uid hpw tiso nowSecs resp users1,
        register users d uid hpw tiso nowSecs = .ok (resp, users1) →
        CarsNodup users1) ∧
    (∀ u p, u.role = "client" → u.cars.contains p = true →
        (add_car u p users).1 = .error ⟨400, "Mașina este deja adăugată"⟩) ∧
    (∀ u p, u.cars.Nodup → CarsNodup (add_car u p users).2) ∧
    (∀ u p, u.cars.Nodup → CarsNodup (remove_car u p users).2) := by
  refine ⟨fun _ _ _ _ => rfl, ?_, ?_, ?_, ?_⟩
  · intro d uid hpw tiso nowSecs resp users1 hreg
    obtain ⟨-, hstore⟩ := register_ok_store hreg
    subst hstore
    intro x hx
    rcases List.mem_append.mp hx with h1 | h1
    · exact hinv x h1
    · simp only [List.mem_singleton] at h1
      subst h1
      simp [mkUserDict]
  · intro u p hrole hc
    have hm : p ∈ u.cars := by simpa using hc
    simp [add_car, hrole, hm]
  · intro u p hu
    by_cases hrole : u.role = "client"
    · by_cases hm : p ∈ u.cars
      · simpa [add_car, hrole, hm] using hinv
      · have hnodup : (u.cars ++ [p]).Nodup := by
          simp [List.nodup_append, hu, hm]
        simpa [add_car, hrole, hm] using
          carsNodup_updateFirst (fun x => x.id == u.id) (u.cars ++ [p]) hnodup users hinv
    · simpa [add_car, hrole] using hinv
  · intro u p hu
    by_cases hrole : u.role = "client"
    · by_cases hm : p ∈ u.cars
      · have hnodup : (u.cars.erase p).Nodup := hu.erase p
        simpa [remove_car, hrole, hm] using
          carsNodup_updateFirst (fun x => x.id == u.id) (u.cars.erase p) hnodup users hinv
      · simpa [remove_car, hrole, hm] using hinv
    · simpa [remove_car, hrole] using hinv

theorem cars_nodup_invariant_witness :
    (add_car anaClient "AB123CDE" [anaClient]).1
      = .error ⟨400, "Mașina este deja adăugată"⟩ ∧
    CarsNodup (add_car anaClient "XY00ZZZ" [anaClient]).2 := by
  have hinv : CarsNodup [anaClient] := by
    intro u hu
    simp only [List.mem_singleton] at hu
    subst hu
    decide
  have h := cars_nodup_invariant [anaClient] hinv
  exact ⟨h.2.2.1 anaClient "AB123CDE" rfl (by decide),
         h.2.2.2.1 anaClient "XY00ZZZ" (by decide)⟩

/-- C10: every successful registration, client or inspector alike,
persists a user document whose `cars` field is the empty list and returns
a response reporting an empty `cars` list. -/
theorem register_cars_empty
    {users : List StoredUser} {d : UserCreate} {uid hpw tiso : String}
    {nowSecs : Int} {resp : TokenResponse} {users1 : List StoredUser}
    (h : register users d uid hpw tiso nowSecs = .ok (resp, users1)) :
    users1 = users ++ [mkUserDict d uid hpw tiso] ∧
    (mkUserDict d uid hpw tiso).cars = [] ∧
    resp.user.cars = [] := by
  obtain ⟨hresp, hstore⟩ := register_ok_store h
  subst hresp
  exact ⟨hstore, rfl, rfl⟩

/-- A concrete client registration and a concrete inspector registration
both persist and report empty car lists. -/
theorem register_cars_empty_witness :
    (mkUserDict claraClientReg "u7" "h7" "t7").cars = [] ∧
    (mkUserDict eveInspectorReg "u9" "h9" "t9").cars = [] := by
  have hc : register [] claraClientReg "u7" "h7" "t7" 0
      = .ok ({ access_token := create_access_token "u7" 0
               token_type := "bearer"
               user := registerResponse claraClientReg "u7" },
             [] ++ [mkUserDict claraClientReg "u7" "h7" "t7"]) := by
    decide
  have he : register [] eveInspectorReg "u9" "h9" "t9" 0
      = .ok ({ access_token := create_access_token "u9" 0
               token_type := "bearer"
               user := registerResponse eveInspectorReg "u9" },
             [] ++ [mkUserDict eveInspectorReg "u9" "h9" "t9"]) := by
    decide
  exact ⟨(register_cars_empty hc).2.1, (register_cars_empty he).2.1⟩

end PTI
